import Mathlib

/-
Verification of scripts/collect_metrics.py.

The script fetches time series from a monitoring backend, reshapes each
series into a (timestamp, value) table, and renders a chart.  We embed the
script shallowly: protobuf messages become structures, the numeric `double`
field is modelled as a rational (no arithmetic is performed on values, only
selection and coercion, so ℚ is faithful), the `int64` field as an integer,
timestamps as integers (epoch seconds), pandas DataFrames as lists of rows,
and Python exceptions as `Except`.  Proto3 scalar fields have no presence
bit: an absent numeric field reads as the zero of its type, which is why the
script's truthiness tests conflate zero with absence.
-/

namespace CollectMetrics

/-- The `interval` member of a monitoring point: only `end_time` is read by
the script (epoch seconds). -/
structure PointInterval where
  end_time : ℤ
deriving DecidableEq, Repr

/-- A protobuf `TypedValue` as the script reads it: both numeric accessors
always yield a value, an unset field reading as the numeric zero of its
type (proto3 has no presence bit for scalars). -/
structure TypedValue where
  double_value : ℚ
  int64_value : ℤ
deriving DecidableEq, Repr

/-- A raw point of a time series: end-of-interval timestamp plus value. -/
structure Point where
  interval : PointInterval
  value : TypedValue
deriving DecidableEq, Repr

/-- The `metric` member of a series: its label set, modelled as an
association list (protobuf maps have unique keys; lookup takes the first
binding, which agrees with map semantics on well-formed label sets). -/
structure Metric where
  labels : List (String × String)
deriving DecidableEq, Repr

/-- A backend-returned time series: label set plus ordered points. -/
structure TimeSeries where
  metric : Metric
  points : List Point
deriving DecidableEq, Repr

/-- One row of the DataFrame built by `timeseries_to_df`: the `time` column
and the `value` column; `none` models Python `None` (a missing value). -/
structure Row where
  time : ℤ
  value : Option ℚ
deriving DecidableEq, Repr

/-- The body of the loop in `timeseries_to_df` (lines 10-17 of the script):
`v = None`; `if point.value.double_value: v = ...`;
`elif point.value.int64_value: v = ...`; then the row is appended
unconditionally.  Python truthiness of a number is value-inequality to
zero, and the int64 branch coerces the integer into the value column. -/
def pointToRow (point : Point) : Row :=
  { time := point.interval.end_time
  , value :=
      if point.value.double_value ≠ 0 then some point.value.double_value
      else if point.value.int64_value ≠ 0 then some ((point.value.int64_value : ℚ))
      else none }

/-- `timeseries_to_df` (script lines 7-18): one row per point, in order. -/
def timeseries_to_df (series : TimeSeries) : List Row :=
  series.points.map pointToRow

/-- The column header chosen for a series in `main` (script line 59):
`s.metric.labels.get('instance_name', 'instance')`. -/
def displayKey (s : TimeSeries) : String :=
  ((s.metric.labels.lookup "instance_name").getD "instance")

/-- `df.set_index('time')` as applied on script line 59.  A DataFrame built
from a nonempty row list has the `time` column and indexing by it keeps the
rows; `pd.DataFrame([])` (a series with no points) has no columns at all,
so `set_index('time')` raises a KeyError. -/
def set_index (rows : List Row) : Except String (List Row) :=
  match rows with
  | [] => Except.error "KeyError: time"
  | _ => Except.ok rows

/-- A per-series single-column DataFrame after
`df.set_index('time').rename(columns=...)` on script line 59: the lone
value column is now headed by the series' display key. -/
structure Frame where
  key : String
  rows : List Row
deriving DecidableEq, Repr

/-- One iteration of the loop on script lines 57-59: build the DataFrame,
set the time index, rename the value column to the display key.  A raised
exception propagates. -/
def seriesToFrame (s : TimeSeries) : Except String Frame :=
  match set_index (timeseries_to_df s) with
  | Except.error e => Except.error e
  | Except.ok indexed => Except.ok { key := displayKey s, rows := indexed }

/-- The loop on script lines 56-59: one frame per series, appended in
order; a raised exception aborts the loop. -/
def buildFrames : List TimeSeries → Except String (List Frame)
  | [] => Except.ok []
  | s :: rest =>
    match seriesToFrame s with
    | Except.error e => Except.error e
    | Except.ok f =>
      match buildFrames rest with
      | Except.error e => Except.error e
      | Except.ok fs => Except.ok (f :: fs)

/-- The column headers of the frames produced by the loop, in order. -/
def columnKeys (frames : List Frame) : List String :=
  frames.map Frame.key

/-- The distinct display keys of a series list, first occurrences kept. -/
def distinctDisplayKeys (series : List TimeSeries) : List String :=
  (series.map displayKey).dedup

/-- The request view enum; the script always passes
`ListTimeSeriesRequest.TimeSeriesView.FULL`. -/
inductive TimeSeriesView where
  | FULL
  | HEADERS
deriving DecidableEq, Repr

/-- The query window sent to the backend (epoch seconds). -/
structure TimeInterval where
  start_time : ℤ
  end_time : ℤ
deriving DecidableEq, Repr

/-- The request dictionary built by `fetch_metric` (script lines 22-27). -/
structure Request where
  name : String
  filter : String
  interval : TimeInterval
  view : TimeSeriesView
deriving DecidableEq, Repr

/-- The backend client: `respond` is the backend's answer to a query; the
transport is out of scope, so it is an arbitrary function. -/
structure Client where
  respond : Request → List TimeSeries

/-- The client's call log: the queries issued so far, in order.  It lets us
state that a code path issues exactly one query. -/
structure ClientState where
  issued : List Request

/-- `client.list_time_series(request=...)`: logs the query and yields the
backend's matching series. -/
def list_time_series (client : Client) (st : ClientState) (req : Request) :
    ClientState × List TimeSeries :=
  ({ issued := st.issued ++ [req] }, client.respond req)

/-- `fetch_metric` (script lines 20-29): issue one query with name
`projects/{project}`, the given filter and interval, view FULL, and
materialize the results with `list(...)` (the identity on the returned
sequence). -/
def fetch_metric (client : Client) (st : ClientState)
    (project : String) (filter_ : String) (interval : TimeInterval) :
    ClientState × List TimeSeries :=
  let (st1, results) :=
    list_time_series client st
      { name := "projects/" ++ project
      , filter := filter_
      , interval := interval
      , view := TimeSeriesView.FULL }
  (st1, results)

/-- A filesystem entry is a regular file or a directory. -/
inductive Entry where
  | file
  | dir
deriving DecidableEq, Repr

/-- A flat model of the filesystem: paths mapped to entries.  A file inside
a directory is just another path bound to `Entry.file`. -/
structure FS where
  entries : List (String × Entry)
deriving DecidableEq, Repr

/-- `os.makedirs(path, exist_ok=...)` as called on script line 37, with
Python's documented semantics: an existing directory is an error only when
`exist_ok` is false; a path bound to a non-directory raises FileExistsError
regardless; otherwise the directory is created and nothing else changes. -/
def makedirs (fs : FS) (path : String) (exist_ok : Bool) : Except String FS :=
  match fs.entries.lookup path with
  | some Entry.dir =>
      if exist_ok then Except.ok fs else Except.error "FileExistsError"
  | some Entry.file => Except.error "FileExistsError"
  | none => Except.ok { entries := (path, Entry.dir) :: fs.entries }

/-- The chart assembled on script lines 63-68: the plotted lines plus the
hard-coded title and axis labels. -/
structure Chart where
  lines : List (List Row)
  title : String
  xlabel : String
  ylabel : String
deriving DecidableEq, Repr

/-- `f['value']` on script line 65: column access on a single-column frame
whose column was renamed to the display key; it raises KeyError unless the
frame's column is literally named `value`. -/
def getColumn (f : Frame) (name : String) : Except String (List Row) :=
  if f.key = name then Except.ok f.rows else Except.error ("KeyError: " ++ name)

/-- The plotting loop on script lines 64-65, sequentially over the frames,
the first raised exception aborting the loop. -/
def plotColumns : List Frame → Except String (List (List Row))
  | [] => Except.ok []
  | f :: rest =>
    match getColumn f "value" with
    | Except.error e => Except.error e
    | Except.ok col =>
      match plotColumns rest with
      | Except.error e => Except.error e
      | Except.ok cols => Except.ok (col :: cols)

/-- The render step (script lines 63-69): plot each frame's `value` column,
set title/labels, save to `os.path.join(out_dir, 'cpu_util.png')`.  Returns
the chart and the saved path. -/
def render (out_dir : String) (frames : List Frame) :
    Except String (Chart × String) :=
  match plotColumns frames with
  | Except.error e => Except.error e
  | Except.ok ls =>
    Except.ok
      ( { lines := ls
        , title := "CPU utilization"
        , xlabel := "time"
        , ylabel := "utilization" }
      , out_dir ++ "/cpu_util.png" )

/-- The parsed command-line arguments (script lines 32-36).  `end_` stands
for the `--end` option (`end` is a Lean keyword). -/
structure Args where
  out_dir : String
  start : Option String
  end_ : Option String

/-- The ambient process environment of a run: the project id from
`GOOGLE_CLOUD_PROJECT`, the current time `datetime.utcnow()` in epoch
seconds, and the backend client. -/
structure Env where
  google_cloud_project : String
  now : ℤ
  client : Client

/-- The hard-coded filter of script line 51. -/
def cpu_filter : String :=
  "metric.type=\"compute.googleapis.com/instance/cpu/utilization\""

/-- The query window computed on script lines 43-48: end = now, start =
now minus 60 minutes, both in epoch seconds. -/
def computeInterval (now : ℤ) : TimeInterval :=
  { start_time := now - 60 * 60, end_time := now }

/-- What a run produces: the queries issued, the frames, the chart, and
the files written to disk, in order. -/
structure RunResult where
  issued : List Request
  frames : List Frame
  chart : Chart
  saved_files : List String
deriving Repr

/-- `main` (script lines 31-69): make the output directory, compute the
window from the current time (the parsed `--start`/`--end` are never
read), fetch, build the per-series frames, render, save the chart.  The
result carries the final filesystem and the run artifacts; any raised
exception aborts the run. -/
def mainRun (env : Env) (args : Args) (fs : FS) :
    Except String (FS × RunResult) :=
  match makedirs fs args.out_dir true with
  | Except.error e => Except.error e
  | Except.ok fs1 =>
    let stSeries :=
      fetch_metric env.client { issued := [] } env.google_cloud_project
        cpu_filter (computeInterval env.now)
    match buildFrames stSeries.2 with
    | Except.error e => Except.error e
    | Except.ok frames =>
      match render args.out_dir frames with
      | Except.error e => Except.error e
      | Except.ok chartPath =>
        Except.ok
          (fs1, { issued := stSeries.1.issued, frames := frames
                , chart := chartPath.1, saved_files := [chartPath.2] })

/-- The closed form of what the loop on script lines 56-59 appends when no
exception is raised: per input series, a single-column table headed by the
series' display key with one row per point. -/
def perSeriesFrames (series : List TimeSeries) : List Frame :=
  series.map fun s => { key := displayKey s, rows := timeseries_to_df s }

/-- The duplicate-display-key input used to refute the single-table claim:
two series that both carry the label `instance_name = a`. -/
def dupKeySeries : List TimeSeries :=
  [ ⟨⟨[("instance_name", "a")]⟩, [⟨⟨1⟩, ⟨1, 0⟩⟩]⟩
  , ⟨⟨[("instance_name", "a")]⟩, [⟨⟨2⟩, ⟨2, 0⟩⟩]⟩ ]

/-- The end-to-end demo input of the spec: series `a` with two double
points and series `b` with one int64 point. -/
def demoSeries : List TimeSeries :=
  [ ⟨⟨[("instance_name", "a")]⟩, [⟨⟨1⟩, ⟨10, 0⟩⟩, ⟨⟨2⟩, ⟨20, 0⟩⟩]⟩
  , ⟨⟨[("instance_name", "b")]⟩, [⟨⟨1⟩, ⟨0, 5⟩⟩]⟩ ]

/-- The outcome of a demo run against an empty backend, used to witness
the fixed-window property: the output directory is created and the one
issued query carries the window now minus one hour to now (now = 1000). -/
def demoRunOut : FS × RunResult :=
  ( ⟨[("out", Entry.dir)]⟩
  , { issued := [ { name := "projects/proj1", filter := cpu_filter
                  , interval := { start_time := 1000 - 60 * 60, end_time := 1000 }
                  , view := TimeSeriesView.FULL } ]
    , frames := []
    , chart := { lines := [], title := "CPU utilization"
               , xlabel := "time", ylabel := "utilization" }
    , saved_files := ["out/cpu_util.png"] } )

end CollectMetrics

namespace CollectMetrics

theorem timeseries_to_df_ne_nil (s : TimeSeries) (h : s.points ≠ []) :
    timeseries_to_df s ≠ [] := by
  simpa [timeseries_to_df] using h

theorem seriesToFrame_eq_ok (s : TimeSeries) (h : s.points ≠ []) :
    seriesToFrame s
      = Except.ok { key := displayKey s, rows := timeseries_to_df s } := by
  have hne := timeseries_to_df_ne_nil s h
  unfold seriesToFrame set_index
  cases hdf : timeseries_to_df s with
  | nil => exact absurd hdf hne
  | cons r rs => rfl

theorem buildFrames_eq_ok (series : List TimeSeries)
    (h : ∀ s ∈ series, s.points ≠ []) :
    buildFrames series = Except.ok (perSeriesFrames series) := by
  induction series with
  | nil => rfl
  | cons s rest ih =>
      have h1 : s.points ≠ [] := h s (List.mem_cons_self s rest)
      have h2 : ∀ t ∈ rest, t.points ≠ [] :=
        fun t ht => h t (List.mem_cons_of_mem s ht)
      simp only [buildFrames, seriesToFrame_eq_ok s h1, ih h2, perSeriesFrames,
        List.map_cons]

end CollectMetrics

namespace CollectMetrics

/-- Claim C1: the spec says a point whose populated numeric field holds the
numeric zero-equivalent, the other field being absent, yields a Sample with
a present zero value.  The code disagrees: both truthiness tests fail on
zero, so the appended row's value is `None` (missing), not `0.0`.  This
theorem evaluates the code at the failing input. -/
theorem C1_zero_point_row_is_missing :
    timeseries_to_df ⟨⟨[("instance_name", "a")]⟩, [⟨⟨5⟩, ⟨0, 0⟩⟩]⟩
        = [{ time := 5, value := none }] ∧
    ({ time := 5, value := none } : Row) ≠ { time := 5, value := some 0 } :=
  ⟨rfl, by decide⟩

/-- Claim C2, counterexample: a point with neither numeric field carrying a
value is not dropped — `rows.append` is unconditional, so the series with
one such point yields one row (timestamp plus missing value), not zero
rows as the claim states. -/
theorem C2_counterexample :
    timeseries_to_df ⟨⟨[]⟩, [⟨⟨7⟩, ⟨0, 0⟩⟩]⟩ = [{ time := 7, value := none }] ∧
    timeseries_to_df ⟨⟨[]⟩, [⟨⟨7⟩, ⟨0, 0⟩⟩]⟩ ≠ [] :=
  ⟨rfl, by decide⟩

/-- Claim C2, amended: a RawPoint in which neither numeric field carries a
value is not dropped; it contributes a row holding its timestamp and a
missing value (`None`), and the per-series result always has exactly one
row per input point. -/
theorem C2_no_value_point_kept_as_missing_row (s : TimeSeries) :
    (timeseries_to_df s).length = s.points.length ∧
    ∀ p ∈ s.points, p.value.double_value = 0 → p.value.int64_value = 0 →
      ({ time := p.interval.end_time, value := none } : Row)
        ∈ timeseries_to_df s := by
  constructor
  · simp [timeseries_to_df]
  · intro p hp h0 h1
    have hrow : pointToRow p = { time := p.interval.end_time, value := none } := by
      simp [pointToRow, h0, h1]
    have hm : pointToRow p ∈ timeseries_to_df s :=
      List.mem_map_of_mem pointToRow hp
    rwa [hrow] at hm

/-- Claim C2, witness for the amended theorem at a concrete input. -/
theorem C2_witness :
    ({ time := 7, value := none } : Row)
      ∈ timeseries_to_df ⟨⟨[]⟩, [⟨⟨7⟩, ⟨0, 0⟩⟩]⟩ :=
  (C2_no_value_point_kept_as_missing_row ⟨⟨[]⟩, [⟨⟨7⟩, ⟨0, 0⟩⟩]⟩).2
    ⟨⟨7⟩, ⟨0, 0⟩⟩ (by decide) rfl rfl

/-- Claim C7: a point with only the floating-point field set to a non-zero
value yields a row with exactly that value; a point with only the integer
field set to a non-zero value yields a row with that value coerced to the
(rational-modelled) floating-point column. -/
theorem C7_populated_field_selected (p : Point) :
    (p.value.double_value ≠ 0 → p.value.int64_value = 0 →
        pointToRow p
          = { time := p.interval.end_time, value := some p.value.double_value }) ∧
    (p.value.double_value = 0 → p.value.int64_value ≠ 0 →
        pointToRow p
          = { time := p.interval.end_time
            , value := some ((p.value.int64_value : ℚ)) }) := by
  constructor
  · intro h1 _
    simp [pointToRow, h1]
  · intro h1 h2
    simp [pointToRow, h1, h2]

/-- Claim C7, witness: a double-only point keeps its exact value, an
int64-only point is coerced. -/
theorem C7_witness :
    pointToRow ⟨⟨3⟩, ⟨5, 0⟩⟩ = { time := 3, value := some 5 } ∧
    pointToRow ⟨⟨4⟩, ⟨0, 7⟩⟩ = { time := 4, value := some ((7 : ℤ) : ℚ) } :=
  ⟨(C7_populated_field_selected ⟨⟨3⟩, ⟨5, 0⟩⟩).1 (by norm_num) rfl,
   (C7_populated_field_selected ⟨⟨4⟩, ⟨0, 7⟩⟩).2 rfl (by norm_num)⟩

/-- Claim C9: a series with no `instance_name` label gets the literal
column header `instance`; when the label is present its value becomes the
header. -/
theorem C9_instance_name_fallback (s : TimeSeries) (hne : s.points ≠ []) :
    (s.metric.labels.lookup "instance_name" = none →
        seriesToFrame s
          = Except.ok { key := "instance", rows := timeseries_to_df s }) ∧
    (∀ v, s.metric.labels.lookup "instance_name" = some v →
        seriesToFrame s
          = Except.ok { key := v, rows := timeseries_to_df s }) := by
  have h := seriesToFrame_eq_ok s hne
  constructor
  · intro hnone
    rw [h]
    simp [displayKey, hnone]
  · intro v hv
    rw [h]
    simp [displayKey, hv]

/-- Claim C9, witness: concrete series with and without the label. -/
theorem C9_witness :
    seriesToFrame ⟨⟨[]⟩, [⟨⟨1⟩, ⟨2, 0⟩⟩]⟩
        = Except.ok { key := "instance", rows := [{ time := 1, value := some 2 }] } ∧
    seriesToFrame ⟨⟨[("instance_name", "a")]⟩, [⟨⟨1⟩, ⟨2, 0⟩⟩]⟩
        = Except.ok { key := "a", rows := [{ time := 1, value := some 2 }] } :=
  ⟨(C9_instance_name_fallback ⟨⟨[]⟩, [⟨⟨1⟩, ⟨2, 0⟩⟩]⟩ (by decide)).1 rfl,
   (C9_instance_name_fallback ⟨⟨[("instance_name", "a")]⟩, [⟨⟨1⟩, ⟨2, 0⟩⟩]⟩
      (by decide)).2 "a" rfl⟩

/-- Claim C3, counterexample: the reshaping loop never merges frames, so
two series sharing the display key `a` yield two one-column tables both
headed `a` — two columns for one distinct display key, contradicting the
claimed single table with one column per distinct key. -/
theorem C3_counterexample :
    buildFrames dupKeySeries
        = Except.ok [ { key := "a", rows := [{ time := 1, value := some 1 }] }
                    , { key := "a", rows := [{ time := 2, value := some 2 }] } ] ∧
    columnKeys [ { key := "a", rows := [{ time := 1, value := some 1 }] }
               , { key := "a", rows := [{ time := 2, value := some 2 }] } ]
        = ["a", "a"] ∧
    distinctDisplayKeys dupKeySeries = ["a"] ∧
    (["a", "a"] : List String) ≠ ["a"] :=
  ⟨rfl, rfl, by decide, by decide⟩

/-- Claim C3, amended: reshaping yields one single-column table per input
series, not a single merged table; the column headers are the series'
display keys in input order (duplicate keys give duplicate columns), and
when every series has at least one point, the row timestamps of the tables
are exactly the input point timestamps series by series — so none are
invented or dropped (a series with no points instead raises a KeyError at
`set_index`). -/
theorem C3_per_series_tables (series : List TimeSeries)
    (h : ∀ s ∈ series, s.points ≠ []) :
    buildFrames series = Except.ok (perSeriesFrames series) ∧
    columnKeys (perSeriesFrames series) = series.map displayKey ∧
    ((perSeriesFrames series).map (fun f => f.rows.map Row.time)).flatten
        = (series.map fun s => s.points.map fun p => p.interval.end_time).flatten := by
  refine ⟨buildFrames_eq_ok series h, ?_, ?_⟩
  · rw [columnKeys, perSeriesFrames, List.map_map]
    rfl
  · simp only [perSeriesFrames, List.map_map, Function.comp_def, timeseries_to_df]
    rfl

/-- Claim C3, witness for the amended theorem at the spec's demo input. -/
theorem C3_witness :
    buildFrames demoSeries = Except.ok (perSeriesFrames demoSeries) ∧
    columnKeys (perSeriesFrames demoSeries) = ["a", "b"] ∧
    ((perSeriesFrames demoSeries).map (fun f => f.rows.map Row.time)).flatten
        = ([[1, 2], [1]] : List (List ℤ)).flatten :=
  C3_per_series_tables demoSeries (by decide)

/-- Claim C4: the spec says the render step draws one line per series
column and saves the chart; the code renames each frame's value column to
the display key and then reads `f['value']`, so rendering any nonempty
series list whose display key is not literally `value` raises a KeyError
instead.  This theorem evaluates the render step at the failing input. -/
theorem C4_render_raises_keyerror :
    render "results/metrics"
        [{ key := "a", rows := [{ time := 1, value := some 1 }] }]
      = Except.error "KeyError: value" := rfl

/-- Claim C5: the spec says every successful run writes a tabular export;
the code's own comment announces writing one CSV, but no tabular file is
ever written — a successful run saves exactly the chart image and nothing
else.  This theorem evaluates a whole successful run. -/
theorem C5_run_writes_only_chart :
    (mainRun ⟨"proj1", 1000, ⟨fun _ => []⟩⟩ ⟨"results/metrics", none, none⟩
        ⟨[]⟩).map (fun r => r.2.saved_files)
      = Except.ok ["results/metrics/cpu_util.png"] := rfl

/-- Claim C6: `fetch_metric` issues exactly one backend query, with name
`projects/P`, the given filter and interval, view FULL, and returns the
backend's series list unmodified and in order (materialized by `list`). -/
theorem C6_fetch_one_query (client : Client) (st : ClientState)
    (project filter_ : String) (interval : TimeInterval) :
    fetch_metric client st project filter_ interval
      = ( { issued := st.issued ++
              [ { name := "projects/" ++ project, filter := filter_
                , interval := interval, view := TimeSeriesView.FULL } ] }
        , client.respond
            { name := "projects/" ++ project, filter := filter_
            , interval := interval, view := TimeSeriesView.FULL } ) := rfl

theorem mainRun_issued (env : Env) (args : Args) (fs : FS)
    (out : FS × RunResult) (h : mainRun env args fs = Except.ok out) :
    out.2.issued
      = [ { name := "projects/" ++ env.google_cloud_project
          , filter := cpu_filter
          , interval := computeInterval env.now
          , view := TimeSeriesView.FULL } ] := by
  unfold mainRun at h
  split at h
  · exact Except.noConfusion h
  · dsimp only at h
    split at h
    · exact Except.noConfusion h
    · split at h
      · exact Except.noConfusion h
      · injection h with h1
        subst h1
        rfl

/-- Claim C8: the query window sent to the backend is always computed from
the current time — end = now, start = now minus 60 minutes — and the
parsed `--start`/`--end` overrides are ignored: the whole run is invariant
under them, the one query `main` issues carries exactly that window, and
any successful run's logged query does too. -/
theorem C8_window_fixed_lookback (env : Env) (d : String)
    (s1 e1 s2 e2 : Option String) (fs : FS) :
    mainRun env ⟨d, s1, e1⟩ fs = mainRun env ⟨d, s2, e2⟩ fs ∧
    (fetch_metric env.client { issued := [] } env.google_cloud_project
          cpu_filter (computeInterval env.now)).1.issued.map Request.interval
        = [{ start_time := env.now - 60 * 60, end_time := env.now }] ∧
    ∀ out, mainRun env ⟨d, s1, e1⟩ fs = Except.ok out →
      out.2.issued.map Request.interval
        = [{ start_time := env.now - 60 * 60, end_time := env.now }] := by
  refine ⟨rfl, rfl, ?_⟩
  intro out h
  rw [mainRun_issued env ⟨d, s1, e1⟩ fs out h]
  rfl

/-- Claim C8, witness: a run with overrides supplied equals the run
without them, and its logged query window is now minus one hour to now. -/
theorem C8_witness :
    mainRun ⟨"proj1", 1000, ⟨fun _ => []⟩⟩ ⟨"out", some "10", some "20"⟩ ⟨[]⟩
        = mainRun ⟨"proj1", 1000, ⟨fun _ => []⟩⟩ ⟨"out", none, none⟩ ⟨[]⟩ ∧
    demoRunOut.2.issued.map Request.interval
      = [{ start_time := 1000 - 60 * 60, end_time := 1000 }] :=
  ⟨(C8_window_fixed_lookback ⟨"proj1", 1000, ⟨fun _ => []⟩⟩ "out"
      (some "10") (some "20") none none ⟨[]⟩).1,
   (C8_window_fixed_lookback ⟨"proj1", 1000, ⟨fun _ => []⟩⟩ "out"
      (some "10") (some "20") none none ⟨[]⟩).2.2 demoRunOut rfl⟩

/-- Claim C10: with `exist_ok=True`, directory setup on an existing
directory succeeds and leaves the filesystem (hence every pre-existing
file) untouched, and it raises only when the path is bound to something
that is not a directory. -/
theorem C10_makedirs_exist_ok (fs : FS) (path : String) :
    (fs.entries.lookup path = some Entry.dir →
        makedirs fs path true = Except.ok fs) ∧
    (∀ e, makedirs fs path true = Except.error e →
        fs.entries.lookup path = some Entry.file) := by
  constructor
  · intro h
    simp [makedirs, h]
  · intro e h
    unfold makedirs at h
    cases hl : fs.entries.lookup path with
    | none =>
        rw [hl] at h
        exact Except.noConfusion h
    | some ent =>
        cases ent with
        | dir =>
            rw [hl] at h
            simp at h
        | file => rfl

/-- Claim C10, witness: an existing output directory with a file inside is
accepted unchanged; a path bound to a regular file is the error case. -/
theorem C10_witness :
    makedirs ⟨[ ("results/metrics", Entry.dir)
              , ("results/metrics/old.csv", Entry.file) ]⟩
        "results/metrics" true
      = Except.ok ⟨[ ("results/metrics", Entry.dir)
                   , ("results/metrics/old.csv", Entry.file) ]⟩ ∧
    (FS.mk [("out", Entry.file)]).entries.lookup "out" = some Entry.file :=
  ⟨(C10_makedirs_exist_ok
      ⟨[ ("results/metrics", Entry.dir)
       , ("results/metrics/old.csv", Entry.file) ]⟩ "results/metrics").1 rfl,
   (C10_makedirs_exist_ok ⟨[("out", Entry.file)]⟩ "out").2 "FileExistsError" rfl⟩

end CollectMetrics
